import Mathlib

/-!
Verification of the remote-browser evaluation scaffolding.

Python strings are modelled as `List Char`; `None`-able values as `Option`;
Python `dict`s as ordered association lists (insertion order preserved,
duplicate keys overwritten, matching CPython semantics); numeric rewards as
`ℚ` (the reward arithmetic in the source is exact decimal/ratio arithmetic
on small values, faithfully represented by rationals); Python exceptions as
`Except String`.  Each section names the source file it embeds.
-/

/-! ## Python string primitives -/

/-- Membership test `needle in haystack` for Python strings (substring
containment; the empty needle is contained in everything). -/
def pyContains (haystack needle : List Char) : Bool :=
  if needle.isPrefixOf haystack then true
  else
    match haystack with
    | [] => false
    | _ :: t => pyContains t needle

/-- Python `str.split(sep)` for a one-character separator: splits at every
occurrence, keeping empty pieces, always returning at least one piece. -/
def pySplit (sep : Char) : List Char → List (List Char)
  | [] => [[]]
  | c :: rest =>
    match pySplit sep rest with
    | [] => [[]]
    | h :: t => if c = sep then [] :: h :: t else (c :: h) :: t

/-- Python `str.rstrip(chars)`: drop matching characters from the right end. -/
def pyRstrip (s : List Char) (p : Char → Bool) : List Char :=
  (s.reverse.dropWhile p).reverse

/-- Python `str.strip()`: drop whitespace from both ends. -/
def pyStrip (s : List Char) : List Char :=
  pyRstrip (s.dropWhile Char.isWhitespace) Char.isWhitespace

/-- Python `str.lower()` (ASCII model). -/
def pyLower (s : List Char) : List Char :=
  s.map Char.toLower

/-- Python `int(digit_string)` on a string of decimal digits. -/
def strToNat (ds : List Char) : Nat :=
  ds.foldl (fun a c => a * 10 + (c.toNat - 48)) 0

/-! ## Cell reference parsing — `src/evaluate/sheets_cell_values.py`

`column_to_index` and `parse_cell_reference` are pure string functions,
translated clause by clause. -/

/-- Embeds `column_to_index` (sheets_cell_values.py lines 10-19): fold
`result = result * 26 + (ord(char) - ord("A") + 1)` over the uppercased
column letters, then subtract 1 to convert to a 0-indexed column. -/
def column_to_index (col_str : List Char) : Int :=
  (col_str.foldl (fun result c => result * 26 + ((c.toUpper.toNat : Int) - 65 + 1)) 0) - 1

/-- Characters carrying the Unicode digit property (`str.isdigit` true)
without being decimal digits (`int()` rejects them): the superscript digits,
representative of that Unicode class in this model. -/
def superscriptDigits : List Char := ['¹', '²', '³']

/-- Python `str.isdigit` on one character: true for decimal digits and also
for digit-property characters such as the superscripts. -/
def pyIsDigit (c : Char) : Bool :=
  c.isDigit || superscriptDigits.contains c

/-- Python `int()` on a scanned row-digit string: converts when every
character is a decimal digit, raises `ValueError` on a digit-property
non-decimal character (e.g. `"²"` — `"²".isdigit()` is true but `int("²")`
raises).  The modelled character universe is ASCII decimals (convertible)
plus the superscripts (not convertible). -/
def pyInt (ds : List Char) : Except String Int :=
  if ds.all Char.isDigit then Except.ok (strToNat ds : Int)
  else Except.error "ValueError"

/-- Embeds the scanning loop of `parse_cell_reference` (lines 29-39): walk the
reference, uppercasing and accumulating letters; at the first `isdigit`
character the whole remaining suffix becomes the row part; any other
character is invalid (`return None`).  Falling off the end leaves the row
part empty. -/
def splitCellRef : List Char → List Char → Option (List Char × List Char)
  | colLetters, [] => some (colLetters, [])
  | colLetters, c :: rest =>
    if c.isAlpha then splitCellRef (colLetters ++ [c.toUpper]) rest
    else if pyIsDigit c then some (colLetters, c :: rest)
    else none

/-- Embeds `parse_cell_reference` (lines 22-48): split into letters and row
digits, reject (`.ok none`) when either part is missing or the row part is
not all `isdigit`, otherwise convert the row with `int()` — which can raise
`ValueError` (`.error`) on digit-property non-decimal characters — and
return `(column_letters, row - 1, column_to_index letters)`. -/
def parse_cell_reference (cell_ref : List Char) :
    Except String (Option (List Char × Int × Int)) :=
  match splitCellRef [] cell_ref with
  | none => Except.ok none
  | some (colLetters, rowDigits) =>
    if colLetters.isEmpty || rowDigits.isEmpty || !(rowDigits.all pyIsDigit) then
      Except.ok none
    else
      match pyInt rowDigits with
      | Except.error e => Except.error e
      | Except.ok n => Except.ok (some (colLetters, n - 1, column_to_index colLetters))

/-! Spec-side inverse for the round-trip property of §8: re-derive column
letters from a 0-indexed column via base-26 bijective numeration
(`A=1 … Z=26, AA=27 …`). -/

/-- Fuelled renderer of a column value in bijective base-26; the fuel only
serves structural recursion and is irrelevant once it is at least the value
(see `bijBase26Fuel_congr`). -/
def bijBase26Fuel : Nat → Nat → List Char
  | _, 0 => []
  | 0, _ + 1 => []
  | f + 1, n + 1 => bijBase26Fuel f (n / 26) ++ [Char.ofNat (65 + n % 26)]

/-- Letters of a column value in bijective base-26 (value 0 ↦ no letters,
1 ↦ A, 26 ↦ Z, 27 ↦ AA, …), following the arithmetic stated in the spec. -/
def bijBase26 (v : Nat) : List Char :=
  bijBase26Fuel v v

/-- Column letters of a 0-indexed column number, per the spec: the
1-indexed value rendered in bijective base-26. -/
def lettersOfColumnIndex (i : Nat) : List Char :=
  bijBase26 (i + 1)

/-- Uppercase Latin letters, the column alphabet. -/
def upperAlphabet : List Char :=
  ['A', 'B', 'C', 'D', 'E', 'F', 'G', 'H', 'I', 'J', 'K', 'L', 'M',
   'N', 'O', 'P', 'Q', 'R', 'S', 'T', 'U', 'V', 'W', 'X', 'Y', 'Z']

/-- Decimal digit characters. -/
def digitAlphabet : List Char :=
  ['0', '1', '2', '3', '4', '5', '6', '7', '8', '9']

/-- Natural-number column value of a letter string (bijective base-26 digits
`toNat c - 64`); agrees with `column_to_index + 1` on uppercase letters. -/
def natColVal (s : List Char) : Nat :=
  s.foldl (fun a c => a * 26 + (c.toNat - 64)) 0

/-! ## More Python primitives -/

/-- Python `haystack.startswith(needle)`. -/
def pyStartsWith (s pre : List Char) : Bool :=
  pre.isPrefixOf s

/-- Python list indexing `xs[i]` with negative wrap-around; `none` is an
`IndexError`. -/
def pyIndex {α : Type} (xs : List α) (i : Int) : Option α :=
  if 0 ≤ i then xs.get? i.toNat
  else if 0 ≤ (xs.length : Int) + i then xs.get? ((xs.length : Int) + i).toNat
  else none

/-- Python `d[k] = v` on an insertion-ordered dict: replace the value of an
existing key in place, else append. -/
def dictInsert {V : Type} : List (List Char × V) → List Char → V → List (List Char × V)
  | [], k, v => [(k, v)]
  | (k0, v0) :: t, k, v =>
    if k0 = k then (k0, v) :: t else (k0, v0) :: dictInsert t k v

/-- Python `d.get(k)`: value of the first matching key, if any. -/
def dictGet {V : Type} (d : List (List Char × V)) (k : List Char) : Option V :=
  (d.find? (fun kv => kv.1 == k)).map (fun kv => kv.2)

/-- Python truthiness of an optional string: `None` and `""` are falsy. -/
def optTruthy (o : Option (List Char)) : Bool :=
  match o with
  | some s => !s.isEmpty
  | none => false

/-- Python `sep.join(xs)`. -/
def pyJoin (sep : List Char) (xs : List (List Char)) : List Char :=
  List.intercalate sep xs

/-- Python `s.replace("_", " ")`. -/
def underscoresToSpaces (s : List Char) : List Char :=
  s.map (fun c => if c = '_' then ' ' else c)

/-! ## Action-memory wrapper — `src/tools/browser.py`

`PlaywrightToolWithMemory` keeps three append-only histories; `navigate` and
`click` are modelled as state transitions.  The underlying operation (the
`super()` call into the external automation library) is an oracle input: its
result dictionary, reduced to the one key the wrapper reads
(`result.get("success")`), plus the page URL read for the navigation
history. `ts` parameters stand for `datetime.now().isoformat()`. -/

/-- Scalar Python values appearing in action detail payloads. -/
inductive PyVal
  | str (s : List Char)
  | int (i : Int)
  | bool (b : Bool)
  deriving DecidableEq, Repr

/-- Result dictionary of an underlying browser operation, as far as the
wrapper inspects it (`result.get("success")` truthiness). -/
structure OpResult where
  success : Bool
  deriving DecidableEq, Repr

/-- One entry of the navigation-only history. -/
structure NavEntry where
  url : List Char
  timestamp : List Char
  deriving DecidableEq, Repr

/-- One entry of the action history (browser.py `_record_action`): action
kind, timestamp, structured detail payload, and the result attached after
the underlying operation completes (`none` while in flight). -/
structure ActionRecord where
  type : List Char
  timestamp : List Char
  details : List (List Char × PyVal)
  result : Option OpResult
  deriving DecidableEq, Repr

/-- State of `PlaywrightToolWithMemory`: the three append-only histories. -/
structure MemoryState where
  navigation_history : List NavEntry
  action_history : List ActionRecord
  selector_history : List (List Char)
  deriving DecidableEq, Repr

/-- Embeds `_record_action` (browser.py lines 58-64): append one record with
the given detail payload and a `None` result. -/
def record_action (s : MemoryState) (action_type : List Char) (ts : List Char)
    (details : List (List Char × PyVal)) : MemoryState :=
  { s with action_history := s.action_history ++ [⟨action_type, ts, details, none⟩] }

/-- Embeds `self.action_history[-1]["result"] = result` under the guard
`if self.action_history:`. -/
def attachResultToLast (s : MemoryState) (r : OpResult) : MemoryState :=
  match s.action_history.getLast? with
  | none => s
  | some last =>
    { s with action_history := s.action_history.dropLast ++ [{ last with result := some r }] }

/-- Embeds `PlaywrightToolWithMemory.navigate` (browser.py lines 66-85):
record the action detail payload first, run the underlying operation
(oracle `op`), attach its result to the just-appended record, then append to
the navigation-only history when the result reports success and a page is
present (`pageUrl` models `self.page` / `self.page.url`). -/
def wrapperNavigate (s : MemoryState) (url wls : List Char) (op : OpResult)
    (pageUrl : Option (List Char)) (ts : List Char) : MemoryState × OpResult :=
  let s1 := record_action s "navigate".data ts
    [("url".data, PyVal.str url), ("wait_for_load_state".data, PyVal.str wls)]
  let s2 := attachResultToLast s1 op
  let s3 :=
    if op.success then
      match pageUrl with
      | some u => { s2 with navigation_history := s2.navigation_history ++ [⟨u, ts⟩] }
      | none => s2
    else s2
  (s3, op)

/-- Embeds `PlaywrightToolWithMemory.click` (browser.py lines 87-106): append
the selector to the selector-only history, record the action detail payload,
run the underlying operation (oracle `op`), attach its result. -/
def wrapperClick (s : MemoryState) (selector button : List Char) (count : Int)
    (wait_for_navigation : Bool) (op : OpResult) (ts : List Char) : MemoryState × OpResult :=
  let s0 := { s with selector_history := s.selector_history ++ [selector] }
  let s1 := record_action s0 "click".data ts
    [("selector".data, PyVal.str selector), ("button".data, PyVal.str button),
     ("count".data, PyVal.int count), ("wait_for_navigation".data, PyVal.bool wait_for_navigation)]
  let s2 := attachResultToLast s1 op
  (s2, op)

/-- One agent-issued wrapper call together with its oracle inputs. -/
inductive WrapperCall
  | nav (url wls : List Char) (op : OpResult) (pageUrl : Option (List Char)) (ts : List Char)
  | clk (selector button : List Char) (count : Int) (waitNav : Bool) (op : OpResult) (ts : List Char)

/-- Apply one wrapper call to the state. -/
def applyCall (s : MemoryState) : WrapperCall → MemoryState
  | WrapperCall.nav url wls op pu ts => (wrapperNavigate s url wls op pu ts).1
  | WrapperCall.clk sel b c w op ts => (wrapperClick s sel b c w op ts).1

/-- Run a sequence of wrapper calls in order. -/
def runCalls (s : MemoryState) (calls : List WrapperCall) : MemoryState :=
  calls.foldl applyCall s

/-- Action kind of a wrapper call, as recorded in the action history. -/
def callKind : WrapperCall → List Char
  | WrapperCall.nav _ _ _ _ _ => "navigate".data
  | WrapperCall.clk _ _ _ _ _ _ => "click".data

/-! ## Evaluators — `src/evaluate/`

Each evaluator returns a Python dict; the fields below cover every key any of
the embedded evaluators writes (absent keys are the defaults).  The return
type `Except String EvalResult` makes exception flow explicit: `.error`
means an exception escaped to the caller, `.ok` a returned dict.  Fallible
browser inspections (`page.content()`, the clipboard extraction sequence)
are oracle fields of `PageOracle`; `page.url` and `page.context` are cached
non-raising properties of the automation library and are plain values. -/

/-- Evaluation result dictionary. -/
structure EvalResult where
  reward : ℚ
  success : Bool
  error : Option String := none
  note : Option String := none
  message : Option String := none
  current_url : Option (List Char) := none
  target_url : Option (List Char) := none
  found_terms : List (List Char) := []
  not_found_terms : List (List Char) := []
  missing_terms : List (List Char) := []
  total_terms : Nat := 0
  partial_rewarding : Option Bool := none
  clipboard_length : Nat := 0
  mismatches : List (List Char × List Char × List Char) := []
  matching_cells : Nat := 0
  total_cells : Nat := 0
  actual_selector : Option (List Char) := none
  expected_selector : Option (List Char) := none
  index : Option Int := none
  selector_history_length : Option Nat := none
  last_action : Option ActionRecord := none
  expected_action : Option (List Char) := none
  expected_details : Option (List (List Char × PyVal)) := none
  history_length : Option Int := none
  min_length : Option Int := none
  max_length : Option Int := none
  in_range : Option Bool := none
  deriving Repr

/-- The common failure dictionary `{reward: 0.0, success: False, error: msg}`. -/
def failureResult (msg : String) : EvalResult :=
  { reward := 0, success := false, error := some msg }

/-- Oracle for one browser page: the cached current URL plus the outcomes of
the fallible inspection calls an evaluator may make on it. `content` models
`await page.content()`; `clipboard` models the whole select-all / copy /
clipboard-read sequence of the sheet evaluators (whose internal tab-retry
and load-wait steps swallow their own exceptions and only influence which
sheet the clipboard text is read from), an `error` being the first
exception escaping those steps into the enclosing `try`. -/
structure PageOracle where
  url : List Char
  content : Except String (List Char)
  clipboard : Except String (List Char)

/-- A Python `Union[str, List[str]]` argument. -/
inductive StrOrList
  | str (s : List Char)
  | list (l : List (List Char))

/-- Normalization `[search_terms] if isinstance(search_terms, str) else search_terms`. -/
def StrOrList.toList : StrOrList → List (List Char)
  | StrOrList.str s => [s]
  | StrOrList.list l => l

/-- Python truthiness of a `Union[str, List[str]]` value. -/
def StrOrList.truthy : StrOrList → Bool
  | StrOrList.str s => !s.isEmpty
  | StrOrList.list l => !l.isEmpty

/-- Embeds `url_match` (url_match.py lines 9-56): guard for a missing page,
then substring containment of the target in the current URL; on failure,
attach case-insensitivity and protocol-prefix diagnostics as notes. -/
def url_match (playwright_tool : Option PageOracle) (target_url : List Char) :
    Except String EvalResult :=
  match playwright_tool with
  | none => Except.ok (failureResult "No browser page available")
  | some page =>
    let current_url := page.url
    if pyContains current_url target_url then
      Except.ok { reward := 1, success := true,
                  current_url := some current_url, target_url := some target_url }
    else
      let info : EvalResult :=
        { reward := 0, success := false,
          current_url := some current_url, target_url := some target_url }
      let info :=
        if pyContains (pyLower current_url) (pyLower target_url) then
          { info with note := some "Case-insensitive match found" }
        else info
      let info :=
        if pyStartsWith current_url "https://".data
            && !(pyStartsWith target_url "https://".data) then
          if pyContains current_url ("https://".data ++ target_url) then
            { info with note := some "Match found with https:// prefix" }
          else info
        else info
      Except.ok info

/-- Embeds `page_contains` (page_contains.py lines 9-70): guard for a missing
page; `page.content()` exceptions are caught and converted to the failure
dictionary; otherwise count the search terms contained in the content and
reward the found fraction (partial mode) or all-or-nothing. -/
def page_contains (playwright_tool : Option PageOracle) (search_terms : StrOrList)
    (partial_rewarding : Bool) : Except String EvalResult :=
  match playwright_tool with
  | none => Except.ok (failureResult "No browser page available")
  | some page =>
    match page.content with
    | Except.error e =>
      Except.ok (failureResult ("Failed to get page content: " ++ e))
    | Except.ok content =>
      let terms := search_terms.toList
      let found := terms.filter (fun t => pyContains content t)
      let notFound := terms.filter (fun t => !pyContains content t)
      let reward : ℚ :=
        if partial_rewarding && !terms.isEmpty then (found.length : ℚ) / (terms.length : ℚ)
        else if notFound.length = 0 then 1 else 0
      Except.ok { reward := reward, success := decide (reward > 0),
                  found_terms := found, not_found_terms := notFound,
                  total_terms := terms.length, partial_rewarding := some partial_rewarding }

/-- Embeds `sheet_contains` (sheet_contains.py lines 9-130): guards for a
missing page, a non-Sheets URL and empty terms; clipboard extraction
exceptions are caught into the failure dictionary, as is empty clipboard
content; otherwise case-insensitive term counting as in `page_contains`. -/
def sheet_contains (playwright_tool : Option PageOracle) (search_terms : StrOrList)
    (partial_rewarding : Bool) : Except String EvalResult :=
  match playwright_tool with
  | none => Except.ok (failureResult "No browser page available")
  | some page =>
    if !pyContains page.url "docs.google.com/spreadsheets".data then
      Except.ok (failureResult "Not on a Google Sheets page!")
    else
      let terms := search_terms.toList
      if terms.isEmpty then
        Except.ok (failureResult "No search terms provided")
      else
        match page.clipboard with
        | Except.error e =>
          Except.ok (failureResult ("Failed to evaluate: " ++ e))
        | Except.ok clipboard_content =>
          if clipboard_content.isEmpty then
            Except.ok (failureResult "Clipboard content is empty")
          else
            let found := terms.filter
              (fun t => pyContains (pyLower clipboard_content) (pyLower t))
            let missing := terms.filter
              (fun t => !pyContains (pyLower clipboard_content) (pyLower t))
            let reward : ℚ :=
              if partial_rewarding && terms.length > 0 then
                (found.length : ℚ) / (terms.length : ℚ)
              else if missing.isEmpty then 1 else 0
            Except.ok { reward := reward, success := missing.isEmpty,
                        found_terms := found, missing_terms := missing,
                        total_terms := terms.length,
                        clipboard_length := clipboard_content.length }

/-- The `Union[Dict, List[Dict]]` cell-values argument of `sheets_cell_values`. -/
inductive CellValuesArg
  | dict (vs : List (List Char × List Char))
  | list (ls : List (List (List Char × List Char)))

/-- Embeds the argument normalization of `sheets_cell_values` (lines 71-76):
a non-empty list contributes its first dict, a dict is itself, anything else
is the empty dict. -/
def CellValuesArg.normalize : CellValuesArg → List (List Char × List Char)
  | CellValuesArg.list (d :: _) => d
  | CellValuesArg.list [] => []
  | CellValuesArg.dict vs => vs

/-- Embeds the row/column lookup of `sheets_cell_values` (lines 228-242):
bounds-guarded indexing into the tab-split clipboard rows, yielding `""` for
an out-of-range row or column; `.error` is an `IndexError` from Python
negative indexing falling off the front (provably unreachable here). -/
def lookupCell (rows : List (List Char)) (row_num col_num : Int) :
    Except String (Option (List Char)) :=
  if row_num < (rows.length : Int) then
    match pyIndex rows row_num with
    | none => Except.error "IndexError"
    | some row =>
      let cells := pySplit '\t' row
      if col_num < (cells.length : Int) then
        match pyIndex cells col_num with
        | none => Except.error "IndexError"
        | some v => Except.ok (some v)
      else Except.ok (some [])
  else Except.ok (some [])

/-- Embeds the first loop of `sheets_cell_values` (lines 212-242): build the
`actual_values` dict, storing `None` for an unparsable reference and the
looked-up cell text (or `""`) otherwise; a `ValueError` escaping
`parse_cell_reference` propagates out of the loop (to the enclosing `try`). -/
def buildActualValues (rows : List (List Char)) :
    List (List Char × List Char) → List (List Char × Option (List Char)) →
    Except String (List (List Char × Option (List Char)))
  | [], acc => Except.ok acc
  | (cell_ref, _) :: rest, acc =>
    match parse_cell_reference cell_ref with
    | Except.error e => Except.error e
    | Except.ok none => buildActualValues rows rest (dictInsert acc cell_ref none)
    | Except.ok (some (_, row_num, col_num)) =>
      match lookupCell rows row_num col_num with
      | Except.error e => Except.error e
      | Except.ok v => buildActualValues rows rest (dictInsert acc cell_ref v)

/-- Embeds the second loop of `sheets_cell_values` (lines 250-268): compare
each expected value against `actual_values.get(cell_ref, "")`, counting
matches (stripped string equality) and collecting mismatch records
(`None` lookups are recorded with actual `""`). -/
def compareStep (actual_values : List (List Char × Option (List Char)))
    (acc : Nat × List (List Char × List Char × List Char)) (kv : List Char × List Char) :
    Nat × List (List Char × List Char × List Char) :=
  match (dictGet actual_values kv.1).getD (some []) with
  | none => (acc.1, acc.2 ++ [(kv.1, kv.2, [])])
  | some av =>
    if pyStrip av = pyStrip kv.2 then (acc.1 + 1, acc.2)
    else (acc.1, acc.2 ++ [(kv.1, kv.2, av)])

/-- The two counters of the comparison loop, folded over the expected
values in order. -/
def compareCells (values : List (List Char × List Char))
    (actual_values : List (List Char × Option (List Char))) :
    Nat × List (List Char × List Char × List Char) :=
  values.foldl (compareStep actual_values) (0, [])

/-- Embeds `sheets_cell_values` (sheets_cell_values.py lines 51-295):
normalize the argument, guard for a missing page / non-Sheets URL / empty
values, then — inside the big `try` whose `except` produces the failure
dictionary — split the extracted clipboard text into rows (the ANSWER-tab
navigation loop and load waits swallow their own exceptions and only
influence the oracle's clipboard text), run the two loops, and score
`matching / total` (partial mode) or all-or-nothing. -/
def sheets_cell_values (playwright_tool : Option PageOracle) (cell_values : CellValuesArg)
    (partial_rewarding : Bool) : Except String EvalResult :=
  let values := cell_values.normalize
  match playwright_tool with
  | none => Except.ok (failureResult "No browser page available")
  | some page =>
    if !pyContains page.url "docs.google.com/spreadsheets".data then
      Except.ok (failureResult "Not on a Google Sheets page!")
    else if values.isEmpty then
      Except.ok { reward := 1, success := true, message := some "No cell values to check" }
    else
      match page.clipboard with
      | Except.error e => Except.ok (failureResult ("Failed to evaluate: " ++ e))
      | Except.ok clipboard_content =>
        let rows := pySplit '\n' (pyRstrip clipboard_content (fun c => c = '\n'))
        match buildActualValues rows values [] with
        | Except.error e => Except.ok (failureResult ("Failed to evaluate: " ++ e))
        | Except.ok actual_values =>
          let compared := compareCells values actual_values
          let matching_cells := compared.1
          let total_cells := values.length
          let reward : ℚ :=
            if partial_rewarding && total_cells > 0 then
              (matching_cells : ℚ) / (total_cells : ℚ)
            else if matching_cells = total_cells then 1 else 0
          Except.ok { reward := reward, success := decide (matching_cells = total_cells),
                      matching_cells := matching_cells, total_cells := total_cells,
                      mismatches := compared.2 }

/-! ## History evaluators — `src/evaluate/selector_history.py`,
`raw_last_action_is.py`, `history_length.py`

These only read the wrapper's in-memory lists, so they are plain total
functions: no browser inspection, no exception source. -/

/-- Embeds `selector_history` (selector_history.py lines 9-59): guard for a
missing tool, reject an index that is negative or not below the history
length with a failure dictionary, otherwise compare the recorded selector. -/
def selector_history (playwright_tool : Option MemoryState) (index : Int)
    (expected_selector : List Char) : EvalResult :=
  match playwright_tool with
  | none => failureResult "No playwright tool available"
  | some t =>
    let sel_history := t.selector_history
    if index < 0 || (sel_history.length : Int) ≤ index then
      { reward := 0, success := false,
        expected_selector := some expected_selector,
        selector_history_length := some sel_history.length,
        error := some ("No selector found at index " ++ toString index) }
    else
      let actual := sel_history.getD index.toNat []
      let ok := actual = expected_selector
      { reward := if ok then 1 else 0, success := decide ok,
        actual_selector := some actual, expected_selector := some expected_selector,
        index := some index, selector_history_length := some sel_history.length }

/-- Embeds `raw_last_action_is` (raw_last_action_is.py lines 9-71): guard for
a missing tool and an empty action history, then compare the last recorded
action kind and (when a non-empty expected-details dict is given and the
kind matches) each expected detail entry. -/
def raw_last_action_is (playwright_tool : Option MemoryState) (expected_action : List Char)
    (expected_details : Option (List (List Char × PyVal))) : EvalResult :=
  match playwright_tool with
  | none => failureResult "No playwright tool available"
  | some t =>
    match t.action_history.getLast? with
    | none =>
      { reward := 0, success := false, expected_action := some expected_action,
        error := some "No actions have been performed" }
    | some last =>
      let action_matches := last.type = expected_action
      let details_match :=
        match expected_details with
        | some ed =>
          if !ed.isEmpty && action_matches then
            ed.all (fun kv => dictGet last.details kv.1 == some kv.2)
          else true
        | none => true
      let ok := action_matches ∧ details_match = true
      { reward := if action_matches ∧ details_match = true then 1 else 0,
        success := decide ok, last_action := some last,
        expected_action := some expected_action, expected_details := expected_details }

/-- Embeds `history_length` (history_length.py lines 9-59): guard for a
missing tool; range check against the optional bounds; when both bounds are
present the reward is proportional closeness to their midpoint (guarded by
`target > 0`), otherwise 1.0 or 0.0 by the range check. -/
def history_length (playwright_tool : Option MemoryState) (min_length max_length : Option Int) :
    EvalResult :=
  match playwright_tool with
  | none => failureResult "No playwright tool available"
  | some t =>
    let hist_len : Int := t.action_history.length
    let in_range := !((min_length.any (fun m => hist_len < m))
      || (max_length.any (fun M => M < hist_len)))
    let reward : ℚ :=
      match min_length, max_length with
      | some m, some M =>
        let target : ℚ := ((m : ℚ) + (M : ℚ)) / 2
        if target > 0 then max 0 (1 - |(hist_len : ℚ) - target| / target)
        else if in_range then 1 else 0
      | _, _ => if in_range then 1 else 0
    { reward := reward, success := in_range, history_length := some hist_len,
      min_length := min_length, max_length := max_length, in_range := some in_range }

/-! ## Scenarios — `src/scenarios/general.py`, `src/scenarios/sheets.py`

A scenario coroutine is modelled by the ordered list of values it yields: a
string yield is the task prompt handed to the agent, a numeric yield is the
reward.  Inputs a scenario obtains from outside (the agent's response
comparison through library calls, per-selector form checks, the current
page URL, the in-page history length, the sheet-creation result) are oracle
parameters.  The second component of the result is an uncaught exception
terminating the coroutine after the yields so far (`none` when the
coroutine runs to completion). -/

/-- One suspension of a scenario coroutine. -/
inductive Yield
  | prompt (p : List Char)
  | reward (r : ℚ)
  deriving DecidableEq, Repr

/-- Does a trace consist of exactly one prompt followed by one reward? -/
def isPromptThenReward : List Yield → Bool
  | [Yield.prompt _, Yield.reward _] => true
  | _ => false

/-- Oracles for the external-library calls of `compare_answers`: outcome of
the `json.loads` comparison (`none` = decode error), of the numeric
extraction and float comparison (`none` = no match / conversion error), and
of `re.search` (`none` = invalid pattern). -/
structure CompareOracles where
  json_eq : Option Bool
  numeric_eq : Option Bool
  regex_found : Option Bool

/-- Embeds `compare_answers` (general.py lines 12-60): `None` answers score
0; `exact` and `contains` are case-insensitive stripped string comparisons;
`json`, `numeric` and `regex` delegate to library calls whose exceptions are
caught into 0.0; an unknown mode scores 0. -/
def compare_answers (actual : Option (List Char)) (expected : List Char)
    (mode : List Char) (oracles : CompareOracles) : ℚ :=
  match actual with
  | none => 0
  | some a =>
    let actual_str := pyStrip a
    let expected_str := pyStrip expected
    if mode = "exact".data then
      if pyLower actual_str = pyLower expected_str then 1 else 0
    else if mode = "contains".data then
      if pyContains (pyLower actual_str) (pyLower expected_str) then 1 else 0
    else if mode = "json".data then
      match oracles.json_eq with
      | some true => 1
      | _ => 0
    else if mode = "numeric".data then
      match oracles.numeric_eq with
      | some true => 1
      | _ => 0
    else if mode = "regex".data then
      match oracles.regex_found with
      | some true => 1
      | _ => 0
    else 0

/-- The full prompt built by the `answer` scenario (general.py lines 105-109). -/
def answerFullPrompt (url promptArg : List Char) : List Char :=
  "Starting at: ".data ++ url ++ "\n\n".data ++ promptArg
    ++ "\n\nWhen you have found the answer, respond with your final answer clearly.".data

/-- Embeds the `answer` scenario (general.py lines 66-124): missing tool
short-circuits to a lone zero-reward yield; otherwise one prompt yield, then
one reward yield — comparison score when an expected answer is given, 1.0
otherwise. -/
def answer (tool_available : Bool) (url promptArg : List Char)
    (expected : Option (List Char)) (compare_mode : List Char)
    (agent_response : Option (List Char)) (oracles : CompareOracles) :
    List Yield × Option String :=
  if !tool_available then ([Yield.reward 0], none)
  else
    let reward : ℚ :=
      match expected with
      | some e => compare_answers agent_response e compare_mode oracles
      | none => 1
    ([Yield.prompt (answerFullPrompt url promptArg), Yield.reward reward], none)

/-- The fields-absent prompt of `fill-record` (general.py lines 178-182). -/
def fillRecordPromptNoFields (promptArg : List Char) : List Char :=
  "You are on a page with form inputs.\n\n".data ++ promptArg
    ++ "\n\nUse the browser tools to locate and fill the required fields.".data

/-- The prompt of `fill-record` (general.py lines 167-182), listing the
requested fields when a non-empty fields dict is given. -/
def fillRecordPrompt (promptArg : List Char)
    (fields : Option (List (List Char × List Char))) : List Char :=
  match fields with
  | some fs =>
    if fs.isEmpty then fillRecordPromptNoFields promptArg
    else
      let fields_desc := pyJoin "\n".data
        (fs.map (fun kv => "- ".data ++ kv.1 ++ ": ".data ++ kv.2))
      "You are on a page with form inputs.\n\n".data ++ promptArg
        ++ "\n\nFill in the following:\n".data ++ fields_desc
        ++ "\n\nUse the browser tools to locate and fill each field.".data
  | none => fillRecordPromptNoFields promptArg

/-- Embeds the `fill-record` scenario (general.py lines 126-217): missing
tool short-circuits to a lone zero-reward yield; empty/absent verify dict
yields full credit after the prompt; otherwise the fraction of verify
selectors whose checked value (oracle `selCheck`, collapsing the
locator / `input_value` / `text_content` chain; `none` = exception, caught
and not counted) matches the expectation after stripping. -/
def fill_record (tool_available : Bool) (url promptArg : List Char)
    (fields : Option (List (List Char × List Char)))
    (verify : Option (List (List Char × List Char)))
    (selCheck : List Char → Option (List Char)) : List Yield × Option String :=
  if !tool_available then ([Yield.reward 0], none)
  else
    let full_prompt := fillRecordPrompt promptArg fields
    match verify with
    | none => ([Yield.prompt full_prompt, Yield.reward 1], none)
    | some v =>
      if v.isEmpty then ([Yield.prompt full_prompt, Yield.reward 1], none)
      else
        let match_count := (v.filter (fun kv =>
          match selCheck kv.1 with
          | some actual => pyStrip actual = pyStrip kv.2
          | none => false)).length
        let total := v.length
        let reward : ℚ := if total > 0 then (match_count : ℚ) / (total : ℚ) else 0
        ([Yield.prompt full_prompt, Yield.reward reward], none)

/-- The default prompt of `wiki-speedrun` (general.py lines 267-278). -/
def wikiDefaultPrompt (start_page target_page : List Char) (max_clicks : Int) : List Char :=
  "Wikipedia Speedrun Challenge!\n\nStarting article: ".data
    ++ underscoresToSpaces start_page
    ++ "\nTarget article: ".data ++ underscoresToSpaces target_page
    ++ "\n\nNavigate from the starting article to the target article by clicking links.\nYou can ONLY click on links within the article content - no search, no back button.\n\nTry to reach the target in as few clicks as possible!\nMaximum clicks allowed: ".data
    ++ (toString max_clicks).data
    ++ "\n\nClick on article links to navigate. The goal is to reach: ".data
    ++ underscoresToSpaces target_page

/-- Embeds the reward computation of `wiki-speedrun` (general.py lines
286-304): when the target URL pattern was reached, derive a click count from
the in-page history length (oracle; `none` = `page.evaluate` raised, caught,
count assumed `max_clicks`) and score efficiency; `.error` is the
uncaught `ZeroDivisionError` of `(clicks - 1) / max_clicks` when
`max_clicks = 0` and the division is reached. -/
def wikiReward (target_reached : Bool) (js_history_length : Option Int)
    (max_clicks : Int) : Except String ℚ :=
  if target_reached then
    let clicks : Int :=
      match js_history_length with
      | some hl => max 1 (hl - 1)
      | none => max_clicks
    if clicks ≤ max_clicks then
      if max_clicks = 0 then Except.error "ZeroDivisionError"
      else Except.ok (max (1/10) (1 - ((clicks : ℚ) - 1) / (max_clicks : ℚ)))
    else Except.ok (1/10)
  else Except.ok 0

/-- Embeds the `wiki-speedrun` scenario (general.py lines 219-306): missing
tool short-circuits to a lone zero-reward yield; otherwise one prompt yield
(custom prompt when truthy, else the default) and one reward yield — unless
the reward arithmetic raises, which terminates the coroutine after the
prompt. -/
def wiki_speedrun (tool_available : Bool) (start_page target_page : List Char)
    (max_clicks : Int) (promptOpt : Option (List Char)) (current_url : List Char)
    (js_history_length : Option Int) : List Yield × Option String :=
  if !tool_available then ([Yield.reward 0], none)
  else
    let full_prompt :=
      if optTruthy promptOpt then promptOpt.getD []
      else wikiDefaultPrompt start_page target_page max_clicks
    let target_reached :=
      pyContains (pyLower current_url) (pyLower ("/wiki/".data ++ target_page))
    match wikiReward target_reached js_history_length max_clicks with
    | Except.ok r => ([Yield.prompt full_prompt, Yield.reward r], none)
    | Except.error e => ([Yield.prompt full_prompt], some e)

/-- Outcome of one attempt of `navigate_to_google_sheet` (setup/sheets.py
lines 29-64): the sheet loaded (`return True`); `page.goto` succeeded but
the grid never loaded, inner `except` (retry-with-reload on non-final
attempts, `return False` on the final one); or the attempt body raised,
outer `except` (retry on non-final attempts, `raise` on the final one). -/
inductive AttemptOutcome
  | loaded
  | loadTimeout
  | navError (msg : String)

/-- Embeds `navigate_to_google_sheet` (setup/sheets.py lines 18-66) over the
ordered oracle outcomes of its attempts (the list length is the
`max_attempts` budget, 3 at the `complete-sheet-task` call site): the first
`loaded` attempt returns `True`; a `loadTimeout` on the final attempt
returns `False`; a raising final attempt re-raises (`.error`). -/
def navigate_to_google_sheet : List AttemptOutcome → Except String Bool
  | [] => Except.ok false
  | [a] =>
    match a with
    | AttemptOutcome.loaded => Except.ok true
    | AttemptOutcome.loadTimeout => Except.ok false
    | AttemptOutcome.navError e => Except.error e
  | a :: rest =>
    match a with
    | AttemptOutcome.loaded => Except.ok true
    | AttemptOutcome.loadTimeout => navigate_to_google_sheet rest
    | AttemptOutcome.navError _ => navigate_to_google_sheet rest

/-- Embeds the `complete-sheet-task` scenario (sheets.py lines 16-61):
missing tool short-circuits to a lone zero-reward yield; with a page
present, setup calls `navigate_to_google_sheet` (line 42) whose re-raise on
the final attempt terminates the coroutine before any yield; without a page
it falls back to the non-raising `navigate_to_url`; then one prompt yield,
then one reward yield carrying `result["reward"]` of the embedded
`sheets_cell_values` call on the page oracle. -/
def complete_sheet_task (playwright_tool : Option (Option PageOracle))
    (promptArg : List Char) (expected_cells : List (List Char × List Char))
    (partial_rewarding : Bool) (navAttempts : List AttemptOutcome) :
    List Yield × Option String :=
  match playwright_tool with
  | none => ([Yield.reward 0], none)
  | some page =>
    match page with
    | some _ =>
      match navigate_to_google_sheet navAttempts with
      | Except.error e => ([], some e)
      | Except.ok _ =>
        match sheets_cell_values page (CellValuesArg.dict expected_cells) partial_rewarding with
        | Except.ok result => ([Yield.prompt promptArg, Yield.reward result.reward], none)
        | Except.error e => ([Yield.prompt promptArg], some e)
    | none =>
      match sheets_cell_values page (CellValuesArg.dict expected_cells) partial_rewarding with
      | Except.ok result => ([Yield.prompt promptArg, Yield.reward result.reward], none)
      | Except.error e => ([Yield.prompt promptArg], some e)

/-- The `expected_cells` evaluation step of `sheet-from-file` (sheets.py
lines 109-111): `min(1.0, cell_result["reward"])` when a non-empty dict of
expected cells is given, 1.0 otherwise. -/
def sheetFromFileCellStep (page : Option PageOracle)
    (expected_cells : Option (List (List Char × List Char))) : Except String ℚ :=
  match expected_cells with
  | some cells =>
    if cells.isEmpty then Except.ok 1
    else (sheets_cell_values page (CellValuesArg.dict cells) true).map
      (fun r => min 1 r.reward)
  | none => Except.ok 1

/-- The `expected_text` evaluation step of `sheet-from-file` (sheets.py lines
113-116), applied to the reward accumulated so far. -/
def sheetFromFileTextStep (page : Option PageOracle) (r1 : ℚ)
    (expected_text : Option StrOrList) : Except String ℚ :=
  match expected_text with
  | some st =>
    if st.truthy then
      (sheet_contains page (StrOrList.list st.toList) true).map
        (fun r => min r1 r.reward)
    else Except.ok r1
  | none => Except.ok r1

/-- Embeds the `sheet-from-file` scenario (sheets.py lines 63-118): missing
tool, missing file source, and failed sheet creation (oracle
`create_result`, the dict returned by `sheets_from_xlsx` /
`sheets_from_bytes`) each short-circuit to a lone zero-reward yield;
otherwise one prompt yield, then one reward yield with the minimum over the
requested cell-values and text-containment evaluations (1.0 when neither is
requested). -/
def sheet_from_file (playwright_tool : Option (Option PageOracle))
    (promptArg : List Char) (file_url file_bytes : Option (List Char))
    (create_result : OpResult)
    (expected_cells : Option (List (List Char × List Char)))
    (expected_text : Option StrOrList) : List Yield × Option String :=
  match playwright_tool with
  | none => ([Yield.reward 0], none)
  | some page =>
    if !(optTruthy file_url) && !(optTruthy file_bytes) then ([Yield.reward 0], none)
    else if !create_result.success then ([Yield.reward 0], none)
    else
      match sheetFromFileCellStep page expected_cells with
      | Except.error e => ([Yield.prompt promptArg], some e)
      | Except.ok r1 =>
        match sheetFromFileTextStep page r1 expected_text with
        | Except.error e => ([Yield.prompt promptArg], some e)
        | Except.ok rf => ([Yield.prompt promptArg, Yield.reward rf], none)

/-! ## Provider selection — `src/env.py` -/

/-- An environment-variable lookup (`os.getenv`). -/
def EnvMap : Type := List Char → Option (List Char)

/-- Python truthiness of `os.getenv(k)`: set and non-empty. -/
def envTruthy (env : EnvMap) (k : List Char) : Bool :=
  optTruthy (env k)

/-- Embeds `PROVIDER_PRIORITY` (env.py lines 233-239): detection priority,
first available wins. -/
def PROVIDER_PRIORITY : List (List Char × List Char) :=
  [("ANCHOR_API_KEY".data, "anchorbrowser".data),
   ("STEEL_API_KEY".data, "steel".data),
   ("BROWSERBASE_API_KEY".data, "browserbase".data),
   ("HYPERBROWSER_API_KEY".data, "hyperbrowser".data),
   ("KERNEL_API_KEY".data, "kernel".data)]

/-- Embeds `_detect_provider` (env.py lines 242-255): an explicit
`BROWSER_PROVIDER` override wins; otherwise scan `PROVIDER_PRIORITY` in
order and return the provider of the first truthy API-key variable;
`.error` is the `ValueError` raised when no key is set. -/
def detect_provider (env : EnvMap) : Except String (List Char) :=
  let explicit := pyLower ((env "BROWSER_PROVIDER".data).getD [])
  if !explicit.isEmpty then Except.ok explicit
  else
    match PROVIDER_PRIORITY.find? (fun p => envTruthy env p.1) with
    | some p => Except.ok p.2
    | none => Except.error "No API key set. Provide one of: ANCHOR_API_KEY, STEEL_API_KEY, BROWSERBASE_API_KEY, HYPERBROWSER_API_KEY, KERNEL_API_KEY"

/-! ## BrowserBase viewport reconciliation — `src/providers/browserbase.py` -/

/-- Manhattan distance key of the `min(..., key=...)` call
(browserbase.py line 92). -/
def viewportDist (width height : Int) (v : Int × Int) : Int :=
  |v.1 - width| + |v.2 - height|

/-- Embeds the supported-viewport list (browserbase.py lines 89-91). -/
def supported_viewports : List (Int × Int) :=
  [(1920, 1080), (1536, 864), (1366, 768), (1280, 720), (1024, 768)]

/-- Python `min(xs, key=key)` over a non-empty list: the first element
attaining the minimal key. -/
def pyMinBy {α : Type} (key : α → Int) (x : α) (xs : List α) : α :=
  xs.foldl (fun b y => if key y < key b then y else b) x

/-- Embeds the closest-viewport selection (browserbase.py line 92);
`min` over the non-empty literal list (the empty branch is unreachable). -/
def closest_viewport (width height : Int) : Int × Int :=
  match supported_viewports with
  | [] => (0, 0)
  | v0 :: rest => pyMinBy (viewportDist width height) v0 rest

/-- Embeds the viewport decision of `BrowserBaseProvider.launch` (lines
77-100): an explicit `viewport` in the launch kwargs wins, then one already
present in `browserSettings`; otherwise the requested
`DISPLAY_WIDTH`/`DISPLAY_HEIGHT` pair is used exactly with
`advancedStealth`, and is mapped to the closest supported size without. -/
def browserbase_viewport (kwargsViewport settingsViewport : Option (Int × Int))
    (advancedStealth : Bool) (width height : Int) : Int × Int :=
  match kwargsViewport with
  | some v => v
  | none =>
    match settingsViewport with
    | some v => v
    | none =>
      if advancedStealth then (width, height)
      else closest_viewport width height

/-! ## Provider close — `src/providers/steel.py`, `src/providers/browserbase.py`

The local session state the teardown path touches, and the vendor call
outcome as an oracle: an HTTP status code, or a raised exception (connection
failure).  Both `close` bodies catch every exception (`raise_for_status` on
a non-404 error status in Steel is caught by the same `except`), and their
`finally` always clears the three local fields. -/

/-- Local session state of a provider adapter. -/
structure ProviderState where
  is_running : Bool
  cdp_url : Option (List Char)
  instance_id : Option (List Char)
  deriving DecidableEq, Repr

/-- Outcome of the vendor teardown call. -/
inductive TeardownOutcome
  | status (code : Nat)
  | raised (msg : String)

/-- The cleared local state left by the `finally` block. -/
def clearedState : ProviderState :=
  { is_running := false, cdp_url := none, instance_id := none }

/-- Embeds `SteelProvider.close` (steel.py lines 134-159): early return when
no instance id; otherwise DELETE the session — a non-404 error status
raises via `raise_for_status` and is caught, a connection failure is caught
— and the `finally` clears `_is_running`, `_cdp_url`, `_instance_id`. -/
def steel_close (s : ProviderState) (outcome : TeardownOutcome) : ProviderState :=
  match s.instance_id with
  | none => s
  | some _ =>
    match outcome with
    | TeardownOutcome.status _ => clearedState
    | TeardownOutcome.raised _ => clearedState

/-- Embeds `BrowserBaseProvider.close` (browserbase.py lines 181-208): early
return when no instance id; otherwise PATCH the session — any status is only
logged, a connection failure is caught — and the `finally` clears
`_is_running`, `_cdp_url`, `_instance_id`. -/
def browserbase_close (s : ProviderState) (outcome : TeardownOutcome) : ProviderState :=
  match s.instance_id with
  | none => s
  | some _ =>
    match outcome with
    | TeardownOutcome.status _ => clearedState
    | TeardownOutcome.raised _ => clearedState

/-! ## Small helpers used by the statements -/

/-- Did an `Except`-valued evaluator return (rather than raise)? -/
def exceptIsOk {α : Type} : Except String α → Bool
  | Except.ok _ => true
  | Except.error _ => false

/-- The action record a wrapper call leaves in the action history. -/
def callRecord : WrapperCall → ActionRecord
  | WrapperCall.nav url wls op _ ts =>
    ⟨"navigate".data, ts,
     [("url".data, PyVal.str url), ("wait_for_load_state".data, PyVal.str wls)], some op⟩
  | WrapperCall.clk sel b c w op ts =>
    ⟨"click".data, ts,
     [("selector".data, PyVal.str sel), ("button".data, PyVal.str b),
      ("count".data, PyVal.int c), ("wait_for_navigation".data, PyVal.bool w)], some op⟩

/-- Example empty wrapper state. -/
def emptyMem : MemoryState := ⟨[], [], []⟩

/-- Example page oracle whose every fallible inspection raises. -/
def deadPage : PageOracle :=
  { url := "https://docs.google.com/spreadsheets/d/x".data,
    content := Except.error "Connection closed",
    clipboard := Except.error "Connection closed" }

/-- Example live provider session state. -/
def liveSession : ProviderState :=
  { is_running := true, cdp_url := some "wss://x".data, instance_id := some "i-1".data }

/-- Example environment: exactly one recognized key (`STEEL_API_KEY`) set. -/
def envSteelOnly : EnvMap := fun k =>
  if k = "STEEL_API_KEY".data then some "sk-steel".data else none

/-- Example environment: two recognized keys set simultaneously, no
explicit override. -/
def envTwoKeys : EnvMap := fun k =>
  if k = "ANCHOR_API_KEY".data then some "ak-anchor".data
  else if k = "STEEL_API_KEY".data then some "sk-steel".data
  else none

/-! ## Theorems -/

lemma bijBase26Fuel_congr : ∀ n f g, n ≤ f → n ≤ g → bijBase26Fuel f n = bijBase26Fuel g n := by
  intro n
  induction n using Nat.strong_induction_on with
  | _ n ih =>
    intro f g hf hg
    match n, f, g with
    | 0, f, g => cases f <;> cases g <;> rfl
    | n + 1, f + 1, g + 1 =>
      show bijBase26Fuel f (n / 26) ++ _ = bijBase26Fuel g (n / 26) ++ _
      have hd : n / 26 < n + 1 := Nat.lt_succ_of_le (Nat.div_le_self n 26)
      rw [ih (n / 26) hd f g (by omega) (by omega)]

lemma bijBase26_succ (n : Nat) :
    bijBase26 (n + 1) = bijBase26 (n / 26) ++ [Char.ofNat (65 + n % 26)] := by
  show bijBase26Fuel n (n / 26) ++ _ = _
  rw [bijBase26Fuel_congr (n / 26) n (n / 26) (Nat.div_le_self n 26) le_rfl]
  rfl

lemma bijBase26_step (m d : Nat) (h1 : 1 ≤ d) (h2 : d ≤ 26) :
    bijBase26 (m * 26 + d) = bijBase26 m ++ [Char.ofNat (64 + d)] := by
  rw [show m * 26 + d = (26 * m + (d - 1)) + 1 from by omega, bijBase26_succ]
  have hd : (26 * m + (d - 1)) / 26 = m := by
    rw [Nat.mul_add_div (by norm_num), Nat.div_eq_of_lt (by omega)]
    omega
  have hm : (26 * m + (d - 1)) % 26 = d - 1 := by
    rw [Nat.mul_add_mod, Nat.mod_eq_of_lt (by omega)]
  rw [hd, hm, show 65 + (d - 1) = 64 + d from by omega]

lemma upper_facts : ∀ c ∈ upperAlphabet,
    c.toUpper = c ∧ 65 ≤ c.toNat ∧ c.toNat ≤ 90 ∧ Char.ofNat c.toNat = c := by decide

lemma digit_facts : ∀ c ∈ digitAlphabet,
    c.isDigit = true ∧ c.isAlpha = false ∧ 48 ≤ c.toNat ∧ c.toNat ≤ 57 := by decide

lemma natColVal_append (s : List Char) (c : Char) :
    natColVal (s ++ [c]) = natColVal s * 26 + (c.toNat - 64) := by
  simp [natColVal, List.foldl_append]

lemma roundtrip_nat (s : List Char) (hs : ∀ c ∈ s, c ∈ upperAlphabet) :
    bijBase26 (natColVal s) = s := by
  induction s using List.reverseRecOn with
  | nil => rfl
  | append_singleton s c ih =>
    have hc := upper_facts c (hs c (by simp))
    have hs2 : ∀ x ∈ s, x ∈ upperAlphabet := fun x hx => hs x (by simp [hx])
    rw [natColVal_append, bijBase26_step _ _ (by omega) (by omega), ih hs2]
    rw [show 64 + (c.toNat - 64) = c.toNat from by omega, hc.2.2.2]

lemma column_to_index_upper (s : List Char) (hs : ∀ c ∈ s, c ∈ upperAlphabet) :
    column_to_index s = (natColVal s : Int) - 1 := by
  unfold column_to_index
  congr 1
  induction s using List.reverseRecOn with
  | nil => rfl
  | append_singleton s c ih =>
    have hc := upper_facts c (hs c (by simp))
    have hs2 : ∀ x ∈ s, x ∈ upperAlphabet := fun x hx => hs x (by simp [hx])
    rw [List.foldl_append, natColVal_append, ih hs2]
    simp only [List.foldl_cons, List.foldl_nil]
    rw [hc.1]
    push_cast [Nat.cast_sub (by omega : (64 : ℕ) ≤ c.toNat)]
    ring

lemma natColVal_pos (s : List Char) (hne : s ≠ []) (hs : ∀ c ∈ s, c ∈ upperAlphabet) :
    1 ≤ natColVal s := by
  induction s using List.reverseRecOn with
  | nil => exact absurd rfl hne
  | append_singleton s c _ =>
    have hc := upper_facts c (hs c (by simp))
    rw [natColVal_append]
    omega

lemma splitCellRef_letters : ∀ (ls acc : List Char) (d : Char) (rest : List Char),
    (∀ c ∈ ls, c.isAlpha = true) → d.isAlpha = false → pyIsDigit d = true →
    splitCellRef acc (ls ++ d :: rest) = some (acc ++ ls.map Char.toUpper, d :: rest) := by
  intro ls
  induction ls with
  | nil =>
    intro acc d rest _ hda hdd
    simp [splitCellRef, hda, hdd]
  | cons l ls ih =>
    intro acc d rest hl hda hdd
    have hla : l.isAlpha = true := hl l (by simp)
    rw [show (l :: ls) ++ d :: rest = l :: (ls ++ d :: rest) from rfl]
    simp only [splitCellRef, hla, if_true]
    rw [ih (acc ++ [l.toUpper]) d rest (fun c hc => hl c (by simp [hc])) hda hdd]
    simp

lemma parse_cell_reference_valid (ls ds : List Char) (hls : ls ≠ [])
    (hl : ∀ c ∈ ls, c.isAlpha = true) (hds : ds ≠ [])
    (hd : ∀ c ∈ ds, c ∈ digitAlphabet) :
    parse_cell_reference (ls ++ ds) =
      Except.ok (some (ls.map Char.toUpper, (strToNat ds : Int) - 1,
        column_to_index (ls.map Char.toUpper))) := by
  match ds, hds with
  | d :: rest, _ =>
    have hdf := digit_facts d (hd d (by simp))
    have hdp : pyIsDigit d = true := by simp [pyIsDigit, hdf.1]
    unfold parse_cell_reference
    rw [splitCellRef_letters ls [] d rest hl hdf.2.1 hdp]
    have hmap : (ls.map Char.toUpper).isEmpty = false := by
      cases ls with
      | nil => exact absurd rfl hls
      | cons a l => rfl
    have hall : ((d :: rest).all Char.isDigit) = true := by
      simp only [List.all_eq_true]
      intro c hc
      exact (digit_facts c (hd c hc)).1
    have hallp : ((d :: rest).all pyIsDigit) = true := by
      simp only [List.all_eq_true]
      intro c hc
      simp [pyIsDigit, (digit_facts c (hd c hc)).1]
    simp [hmap, hallp, pyInt, hall]

/-- C5: for every valid cell reference (letters then digits),
`parse_cell_reference` returns the 0-indexed `(row, column)` pair obtained by
base-26 letter arithmetic (A=1 … Z=26) minus 1 — with `"A1" ↦ (0,0)`,
`"B2" ↦ (1,1)`, `"AA1" ↦ (0,26)`, `"AZ1" ↦ (0,51)` — and the column index
round-trips back to the original letters via bijective base-26. -/
theorem c5_parse_cell_reference_base26_roundtrip :
    parse_cell_reference "A1".data = Except.ok (some ("A".data, 0, 0))
    ∧ parse_cell_reference "B2".data = Except.ok (some ("B".data, 1, 1))
    ∧ parse_cell_reference "AA1".data = Except.ok (some ("AA".data, 0, 26))
    ∧ parse_cell_reference "AZ1".data = Except.ok (some ("AZ".data, 0, 51))
    ∧ (∀ ls ds : List Char, ls ≠ [] → (∀ c ∈ ls, c.isAlpha = true) → ds ≠ [] →
        (∀ c ∈ ds, c ∈ digitAlphabet) →
        parse_cell_reference (ls ++ ds) =
          Except.ok (some (ls.map Char.toUpper, (strToNat ds : Int) - 1,
                column_to_index (ls.map Char.toUpper))))
    ∧ (∀ s : List Char, s ≠ [] → (∀ c ∈ s, c ∈ upperAlphabet) →
        lettersOfColumnIndex (column_to_index s).toNat = s) := by
  refine ⟨rfl, rfl, rfl, rfl, parse_cell_reference_valid, ?_⟩
  intro s hne hs
  have h1 := natColVal_pos s hne hs
  have h2 := column_to_index_upper s hs
  have h3 : (column_to_index s).toNat = natColVal s - 1 := by rw [h2]; omega
  unfold lettersOfColumnIndex
  rw [h3, show natColVal s - 1 + 1 = natColVal s from by omega]
  exact roundtrip_nat s hs

/-- Witness for C5: instantiates the round-trip clause at the concrete
column letters `"AZ"`, discharging both hypotheses by computation. -/
theorem c5_parse_cell_reference_base26_roundtrip_witness :
    ("AZ".data ≠ [] ∧ (∀ c ∈ "AZ".data, c ∈ upperAlphabet))
    ∧ lettersOfColumnIndex ((column_to_index "AZ".data).toNat) = "AZ".data :=
  ⟨⟨by decide, by decide⟩,
    c5_parse_cell_reference_base26_roundtrip.2.2.2.2.2 "AZ".data (by decide) (by decide)⟩

lemma pyMinBy_spec {α : Type} (key : α → Int) :
    ∀ (xs : List α) (x : α),
      (pyMinBy key x xs = x ∨ pyMinBy key x xs ∈ xs)
      ∧ key (pyMinBy key x xs) ≤ key x
      ∧ ∀ y ∈ xs, key (pyMinBy key x xs) ≤ key y := by
  intro xs
  induction xs with
  | nil =>
    intro x
    refine ⟨Or.inl rfl, le_refl _, ?_⟩
    intro y hy
    exact absurd hy (List.not_mem_nil y)
  | cons y t ih =>
    intro x
    have hstep : pyMinBy key x (y :: t) = pyMinBy key (if key y < key x then y else x) t := rfl
    obtain ⟨hmem, hle, hall⟩ := ih (if key y < key x then y else x)
    have hle2 : key (if key y < key x then y else x) ≤ key x := by
      by_cases hc : key y < key x
      · rw [if_pos hc]; omega
      · rw [if_neg hc]
    have hley : key (if key y < key x then y else x) ≤ key y := by
      by_cases hc : key y < key x
      · rw [if_pos hc]
      · rw [if_neg hc]; omega
    refine ⟨?_, ?_, ?_⟩
    · rw [hstep]
      rcases hmem with h | h
      · by_cases hc : key y < key x
        · right; rw [h, if_pos hc]; exact List.mem_cons_self y t
        · left; rw [h, if_neg hc]
      · right; exact List.mem_cons_of_mem y h
    · rw [hstep]; exact le_trans hle hle2
    · intro z hz
      rw [hstep]
      rcases List.mem_cons.mp hz with rfl | hz2
      · exact le_trans hle hley
      · exact hall z hz2

/-- C7: without the `advancedStealth` capability (and no explicit viewport),
the BrowserBase adapter selects from its fixed supported list the viewport
minimizing the sum of absolute width and height deltas; in particular a
requested `(1300, 700)` selects `(1280, 720)`. -/
theorem c7_browserbase_viewport_reconciliation :
    (∀ width height : Int,
        browserbase_viewport none none false width height ∈ supported_viewports
        ∧ ∀ v ∈ supported_viewports,
            viewportDist width height (browserbase_viewport none none false width height)
              ≤ viewportDist width height v)
    ∧ browserbase_viewport none none false 1300 700 = (1280, 720) := by
  constructor
  · intro width height
    have h := pyMinBy_spec (viewportDist width height)
      [(1536, 864), (1366, 768), (1280, 720), (1024, 768)] ((1920, 1080) : Int × Int)
    have heq : browserbase_viewport none none false width height
        = pyMinBy (viewportDist width height) (1920, 1080)
          [(1536, 864), (1366, 768), (1280, 720), (1024, 768)] := rfl
    have hlist : supported_viewports
        = (1920, 1080) :: [(1536, 864), (1366, 768), (1280, 720), (1024, 768)] := rfl
    constructor
    · rw [heq, hlist]
      rcases h.1 with h1 | h1
      · rw [h1]; exact List.mem_cons_self _ _
      · exact List.mem_cons_of_mem _ h1
    · intro v hv
      rw [hlist] at hv
      rw [heq]
      rcases List.mem_cons.mp hv with rfl | hv2
      · exact h.2.1
      · exact h.2.2 v hv2
  · decide

/-- C8: provider `close()` never raises (it is a total function of the
teardown outcome, exceptions included), clears the local session state
whenever an instance id is present, is a no-op on an already-closed state
(instance id absent), and a second `close()` is a no-op — for both the Steel
and the BrowserBase adapters. -/
theorem c8_provider_close_idempotent :
    (∀ (s : ProviderState) (o : TeardownOutcome), s.instance_id = none →
        steel_close s o = s ∧ browserbase_close s o = s)
    ∧ (∀ (s : ProviderState) (o : TeardownOutcome), s.instance_id ≠ none →
        steel_close s o = clearedState ∧ browserbase_close s o = clearedState)
    ∧ (∀ (s : ProviderState) (o o2 : TeardownOutcome),
        steel_close (steel_close s o) o2 = steel_close s o
        ∧ browserbase_close (browserbase_close s o) o2 = browserbase_close s o) := by
  have h1 : ∀ (s : ProviderState) (o : TeardownOutcome), s.instance_id = none →
      steel_close s o = s ∧ browserbase_close s o = s := by
    intro s o h
    cases o <;> simp [steel_close, browserbase_close, h]
  have h2 : ∀ (s : ProviderState) (o : TeardownOutcome), s.instance_id ≠ none →
      steel_close s o = clearedState ∧ browserbase_close s o = clearedState := by
    intro s o h
    rcases hs : s.instance_id with _ | i
    · exact absurd hs h
    · cases o <;> simp [steel_close, browserbase_close, hs]
  refine ⟨h1, h2, ?_⟩
  intro s o o2
  rcases hs : s.instance_id with _ | i
  · have e1 := h1 s o hs
    rw [e1.1, e1.2]
    exact ⟨(h1 s o2 hs).1, (h1 s o2 hs).2⟩
  · have e2 := h2 s o (by rw [hs]; exact fun h => Option.noConfusion h)
    rw [e2.1, e2.2]
    exact ⟨(h1 clearedState o2 rfl).1, (h1 clearedState o2 rfl).2⟩

/-- Witness for C8: closing a live Steel/BrowserBase session whose vendor
call raises still clears all local state. -/
theorem c8_provider_close_idempotent_witness :
    liveSession.instance_id ≠ none
    ∧ steel_close liveSession (TeardownOutcome.raised "ConnectError") = clearedState
    ∧ browserbase_close liveSession (TeardownOutcome.raised "ConnectError") = clearedState := by
  refine ⟨by simp [liveSession], ?_, ?_⟩
  · exact (c8_provider_close_idempotent.2.1 _ _ (by simp [liveSession])).1
  · exact (c8_provider_close_idempotent.2.1 _ _ (by simp [liveSession])).2

/-- Counterexample to C2: with `ANCHOR_API_KEY` and `STEEL_API_KEY` both set
and no `BROWSER_PROVIDER` override, `_detect_provider` silently returns the
higher-priority provider instead of raising a configuration error. -/
theorem c2_multiple_keys_counterexample :
    envTruthy envTwoKeys "ANCHOR_API_KEY".data = true
    ∧ envTruthy envTwoKeys "STEEL_API_KEY".data = true
    ∧ envTwoKeys "BROWSER_PROVIDER".data = none
    ∧ detect_provider envTwoKeys = Except.ok "anchorbrowser".data := by
  refine ⟨rfl, rfl, rfl, rfl⟩

/-- C2 (amended): when no explicit provider-name override is set, the run
scans `PROVIDER_PRIORITY` in order and selects the provider of the first
recognized API-key environment variable that is set and non-empty — so with
multiple keys present the highest-priority one silently wins — and raises a
configuration error only when no recognized key is present at all. -/
theorem c2_provider_detection_first_key_wins (env : EnvMap)
    (hover : optTruthy (env "BROWSER_PROVIDER".data) = false) :
    (∀ kv, PROVIDER_PRIORITY.find? (fun q => envTruthy env q.1) = some kv →
        detect_provider env = Except.ok kv.2)
    ∧ (PROVIDER_PRIORITY.find? (fun q => envTruthy env q.1) = none →
        ∃ e, detect_provider env = Except.error e) := by
  have hexp : pyLower ((env "BROWSER_PROVIDER".data).getD []) = [] := by
    rcases henv : env "BROWSER_PROVIDER".data with _ | s
    · rfl
    · unfold optTruthy at hover
      rw [henv] at hover
      have hs : s.isEmpty = true := by simpa using hover
      have : s = [] := List.isEmpty_iff.mp hs
      simp [henv, this, pyLower]
  constructor
  · intro kv hf
    unfold detect_provider
    rw [hexp, hf]
    simp
  · intro hf
    unfold detect_provider
    rw [hexp, hf]
    exact ⟨"No API key set. Provide one of: ANCHOR_API_KEY, STEEL_API_KEY, BROWSERBASE_API_KEY, HYPERBROWSER_API_KEY, KERNEL_API_KEY", by simp⟩

/-- Witness for C2: with only `STEEL_API_KEY` set and no override, the run
selects the `steel` provider. -/
theorem c2_provider_detection_first_key_wins_witness :
    optTruthy (envSteelOnly "BROWSER_PROVIDER".data) = false
    ∧ detect_provider envSteelOnly = Except.ok "steel".data :=
  ⟨rfl, (c2_provider_detection_first_key_wins envSteelOnly rfl).1
    ("STEEL_API_KEY".data, "steel".data) rfl⟩

/-- C9: the history-indexing evaluators are index-safe — any negative or
too-large index into the selector history yields the failure dictionary
(reward 0, success false, non-null error), never an out-of-bounds access or
end-relative wrap-around, and `raw_last_action_is` on an empty action
history likewise yields the failure dictionary. -/
theorem c9_history_index_safety :
    (∀ (t : MemoryState) (idx : Int) (exp : List Char),
        idx < 0 ∨ (t.selector_history.length : Int) ≤ idx →
        (selector_history (some t) idx exp).reward = 0
        ∧ (selector_history (some t) idx exp).success = false
        ∧ (selector_history (some t) idx exp).error.isSome = true)
    ∧ (∀ (t : MemoryState) (exp : List Char) (ed : Option (List (List Char × PyVal))),
        t.action_history = [] →
        (raw_last_action_is (some t) exp ed).reward = 0
        ∧ (raw_last_action_is (some t) exp ed).success = false
        ∧ (raw_last_action_is (some t) exp ed).error.isSome = true) := by
  constructor
  · intro t idx exp h
    have hcond : (decide (idx < 0) || decide ((t.selector_history.length : Int) ≤ idx)) = true := by
      rcases h with h | h <;> simp [h]
    simp [selector_history, hcond]
  · intro t exp ed h
    simp [raw_last_action_is, h]

/-- Witness for C9: a negative index against a one-element selector history
and an empty action history both produce zero-reward failures. -/
theorem c9_history_index_safety_witness :
    (selector_history (some ⟨[], [], ["#btn".data]⟩) (-1) "#btn".data).reward = 0
    ∧ (raw_last_action_is (some ⟨[], [], []⟩) "click".data none).reward = 0 :=
  ⟨(c9_history_index_safety.1 ⟨[], [], ["#btn".data]⟩ (-1) "#btn".data
      (Or.inl (by norm_num))).1,
   (c9_history_index_safety.2 ⟨[], [], []⟩ "click".data none rfl).1⟩

/-- C10: `history_length` always returns a reward in `[0, 1]`: the
proportional-closeness formula is applied exactly when both bounds are given
and the midpoint target is positive (and then never exceeds 1), and every
other branch — missing tool, missing bound, or non-positive target
(including `min_length = max_length = 0`) — returns exactly 1.0 or 0.0. -/
theorem c10_history_length_reward_range :
    (∀ (t : Option MemoryState) (mn mx : Option Int),
        0 ≤ (history_length t mn mx).reward ∧ (history_length t mn mx).reward ≤ 1)
    ∧ (∀ (s : MemoryState) (m M : Int), 0 < ((m : ℚ) + (M : ℚ)) / 2 →
        (history_length (some s) (some m) (some M)).reward
          = max 0 (1 - |((s.action_history.length : Int) : ℚ) - ((m : ℚ) + (M : ℚ)) / 2|
              / (((m : ℚ) + (M : ℚ)) / 2)))
    ∧ (∀ (s : MemoryState) (m M : Int), ((m : ℚ) + (M : ℚ)) / 2 ≤ 0 →
        (history_length (some s) (some m) (some M)).reward = 0
        ∨ (history_length (some s) (some m) (some M)).reward = 1)
    ∧ (∀ (t : Option MemoryState) (mn mx : Option Int), mn = none ∨ mx = none →
        (history_length t mn mx).reward = 0 ∨ (history_length t mn mx).reward = 1) := by
  refine ⟨?_, ?_, ?_, ?_⟩
  · intro t mn mx
    rcases t with _ | s
    · simp [history_length, failureResult]
    · rcases mn with _ | m <;> rcases mx with _ | M <;>
        simp only [history_length] <;> split_ifs with h1 h2
      · constructor <;> norm_num
      · constructor <;> norm_num
      · constructor <;> norm_num
      · constructor <;> norm_num
      · constructor <;> norm_num
      · constructor <;> norm_num
      · -- both bounds present, positive target: the closeness formula
        have hd : 0 ≤ |((s.action_history.length : Int) : ℚ) - ((m : ℚ) + (M : ℚ)) / 2|
            / (((m : ℚ) + (M : ℚ)) / 2) := div_nonneg (abs_nonneg _) (le_of_lt h1)
        constructor
        · exact le_max_left 0 _
        · apply max_le (by norm_num)
          linarith
      · constructor <;> norm_num
      · constructor <;> norm_num
  · intro s m M h
    simp only [history_length]
    rw [if_pos h]
  · intro s m M h
    simp only [history_length]
    rw [if_neg (not_lt.mpr h)]
    split_ifs
    · right; rfl
    · left; rfl
  · intro t mn mx h
    rcases t with _ | s
    · left; simp [history_length, failureResult]
    · rcases h with rfl | rfl
      · rcases mx with _ | M <;> simp only [history_length] <;> split_ifs
        · right; rfl
        · left; rfl
        · right; rfl
        · left; rfl
      · rcases mn with _ | m <;> simp only [history_length] <;> split_ifs
        · right; rfl
        · left; rfl
        · right; rfl
        · left; rfl

/-- Witness for C10: the degenerate `min_length = max_length = 0` case on an
empty history returns exactly 1.0, and a positive-target instance evaluates
the closeness formula. -/
theorem c10_history_length_reward_range_witness :
    ((((0 : Int) : ℚ) + ((0 : Int) : ℚ)) / 2 ≤ 0
      ∧ ((history_length (some emptyMem) (some 0) (some 0)).reward = 0
        ∨ (history_length (some emptyMem) (some 0) (some 0)).reward = 1))
    ∧ (0 < (((2 : Int) : ℚ) + ((4 : Int) : ℚ)) / 2
      ∧ (history_length (some emptyMem) (some 2) (some 4)).reward
          = max 0 (1 - |((emptyMem.action_history.length : Int) : ℚ)
              - (((2 : Int) : ℚ) + ((4 : Int) : ℚ)) / 2|
              / ((((2 : Int) : ℚ) + ((4 : Int) : ℚ)) / 2))) :=
  ⟨⟨by norm_num, c10_history_length_reward_range.2.2.1 emptyMem 0 0 (by norm_num)⟩,
   ⟨by norm_num, c10_history_length_reward_range.2.1 emptyMem 2 4 (by norm_num)⟩⟩

lemma attach_record (s : MemoryState) (ty ts : List Char)
    (det : List (List Char × PyVal)) (op : OpResult) :
    attachResultToLast (record_action s ty ts det) op
      = { s with action_history := s.action_history ++ [⟨ty, ts, det, some op⟩] } := by
  simp [record_action, attachResultToLast, List.getLast?_concat, List.dropLast_concat]

lemma wrapperNavigate_action (s : MemoryState) (url wls : List Char) (op : OpResult)
    (pu : Option (List Char)) (ts : List Char) :
    (wrapperNavigate s url wls op pu ts).1.action_history
      = s.action_history ++ [callRecord (WrapperCall.nav url wls op pu ts)] := by
  unfold wrapperNavigate
  dsimp only
  rw [attach_record]
  rcases op with ⟨b⟩
  cases b <;> rcases pu with _ | u <;> simp [callRecord]

lemma wrapperClick_histories (s : MemoryState) (sel b : List Char) (c : Int) (w : Bool)
    (op : OpResult) (ts : List Char) :
    (wrapperClick s sel b c w op ts).1.action_history
      = s.action_history ++ [callRecord (WrapperCall.clk sel b c w op ts)]
    ∧ (wrapperClick s sel b c w op ts).1.selector_history = s.selector_history ++ [sel]
    ∧ (wrapperClick s sel b c w op ts).1.navigation_history = s.navigation_history := by
  unfold wrapperClick
  dsimp only
  rw [attach_record]
  exact ⟨rfl, rfl, rfl⟩

lemma applyCall_action (s : MemoryState) (c : WrapperCall) :
    (applyCall s c).action_history = s.action_history ++ [callRecord c] := by
  cases c with
  | nav url wls op pu ts => exact wrapperNavigate_action s url wls op pu ts
  | clk sel b cnt w op ts => exact (wrapperClick_histories s sel b cnt w op ts).1

lemma callRecord_type (c : WrapperCall) : (callRecord c).type = callKind c := by
  cases c <;> rfl

lemma runCalls_length (calls : List WrapperCall) :
    ∀ s : MemoryState, (runCalls s calls).action_history.length
      = s.action_history.length + calls.length := by
  induction calls with
  | nil => intro s; simp [runCalls]
  | cons c t ih =>
    intro s
    have hstep : runCalls s (c :: t) = runCalls (applyCall s c) t := rfl
    rw [hstep, ih]
    rw [applyCall_action]
    simp
    omega

lemma runCalls_concat (s : MemoryState) (calls : List WrapperCall) (c : WrapperCall) :
    runCalls s (calls ++ [c]) = applyCall (runCalls s calls) c := by
  simp [runCalls, List.foldl_append]

/-- C4: every `navigate` and `click` call appends exactly one action record
— detail payload recorded first (`record_action` with a `None` result), the
operation result attached to that same record afterwards; `click`
additionally appends its selector unconditionally, while `navigate` appends
to the navigation-only history iff the operation reports success (under the
automation-library guarantee that a successful navigate has a page); hence
after any interleaving of N navigates and M clicks the action history grew
by N+M and its last element's type is the most recent call's kind. -/
theorem c4_action_memory_wrapper :
    (∀ (s : MemoryState) (ty ts : List Char) (det : List (List Char × PyVal)) (op : OpResult),
        (record_action s ty ts det).action_history = s.action_history ++ [⟨ty, ts, det, none⟩]
        ∧ attachResultToLast (record_action s ty ts det) op
            = { s with action_history := s.action_history ++ [⟨ty, ts, det, some op⟩] })
    ∧ (∀ (s : MemoryState) (url wls : List Char) (op : OpResult) (pu : Option (List Char))
          (ts : List Char),
        (wrapperNavigate s url wls op pu ts).1.action_history
          = s.action_history ++ [callRecord (WrapperCall.nav url wls op pu ts)])
    ∧ (∀ (s : MemoryState) (sel b : List Char) (c : Int) (w : Bool) (op : OpResult)
          (ts : List Char),
        (wrapperClick s sel b c w op ts).1.action_history
          = s.action_history ++ [callRecord (WrapperCall.clk sel b c w op ts)]
        ∧ (wrapperClick s sel b c w op ts).1.selector_history
          = s.selector_history ++ [sel])
    ∧ (∀ (s : MemoryState) (url wls : List Char) (op : OpResult) (pu : Option (List Char))
          (ts : List Char), (op.success = true → pu.isSome) →
        (op.success = true → ∃ u, pu = some u
          ∧ (wrapperNavigate s url wls op pu ts).1.navigation_history
              = s.navigation_history ++ [⟨u, ts⟩])
        ∧ (op.success = false →
            (wrapperNavigate s url wls op pu ts).1.navigation_history
              = s.navigation_history))
    ∧ (∀ (s : MemoryState) (calls : List WrapperCall),
        (runCalls s calls).action_history.length
          = s.action_history.length + calls.length)
    ∧ (∀ (s : MemoryState) (calls : List WrapperCall) (c : WrapperCall),
        ((runCalls s (calls ++ [c])).action_history.getLast?).map ActionRecord.type
          = some (callKind c)) := by
  refine ⟨?_, wrapperNavigate_action, ?_, ?_, ?_, ?_⟩
  · intro s ty ts det op
    exact ⟨rfl, attach_record s ty ts det op⟩
  · intro s sel b c w op ts
    exact ⟨(wrapperClick_histories s sel b c w op ts).1,
           (wrapperClick_histories s sel b c w op ts).2.1⟩
  · intro s url wls op pu ts hlib
    constructor
    · intro hsucc
      rcases hpu : pu with _ | u
      · rw [hpu] at hlib
        exact absurd (hlib hsucc) (by simp)
      · refine ⟨u, rfl, ?_⟩
        unfold wrapperNavigate
        dsimp only
        rw [attach_record]
        simp [hsucc, hpu]
    · intro hfail
      unfold wrapperNavigate
      dsimp only
      rw [attach_record]
      simp [hfail]
  · intro s calls
    exact runCalls_length calls s
  · intro s calls c
    rw [runCalls_concat, applyCall_action, List.getLast?_concat]
    simp [callRecord_type]

/-- Witness for C4: a successful navigate on the empty state appends one
fully-populated action record and one navigation entry. -/
theorem c4_action_memory_wrapper_witness :
    (OpResult.mk true).success = true
    ∧ (∃ u, (some "https://e.com".data : Option (List Char)) = some u
        ∧ (wrapperNavigate emptyMem "https://e.com".data "networkidle".data
            (OpResult.mk true) (some "https://e.com".data) "t0".data).1.navigation_history
          = emptyMem.navigation_history ++ [⟨u, "t0".data⟩]) :=
  ⟨rfl, (c4_action_memory_wrapper.2.2.2.1 emptyMem "https://e.com".data "networkidle".data
      (OpResult.mk true) (some "https://e.com".data) "t0".data (fun _ => rfl)).1 rfl⟩

lemma exceptIsOk_ok {α : Type} (a : α) : exceptIsOk (Except.ok a) = true := rfl

lemma url_match_ok (pt : Option PageOracle) (target : List Char) :
    exceptIsOk (url_match pt target) = true := by
  rcases pt with _ | page
  · rfl
  · unfold url_match
    dsimp only
    split_ifs <;> rfl

lemma page_contains_ok (pt : Option PageOracle) (terms : StrOrList) (pr : Bool) :
    exceptIsOk (page_contains pt terms pr) = true := by
  rcases pt with _ | page
  · rfl
  · unfold page_contains
    dsimp only
    rcases hc : page.content with e | c <;> rfl

lemma sheet_contains_ok (pt : Option PageOracle) (terms : StrOrList) (pr : Bool) :
    exceptIsOk (sheet_contains pt terms pr) = true := by
  rcases pt with _ | page
  · rfl
  · unfold sheet_contains
    dsimp only
    rcases hc : page.clipboard with e | c <;> dsimp only <;> split_ifs <;> rfl

lemma sheets_cell_values_ok (pt : Option PageOracle) (cv : CellValuesArg) (pr : Bool) :
    exceptIsOk (sheets_cell_values pt cv pr) = true := by
  rcases pt with _ | page
  · rfl
  · unfold sheets_cell_values
    dsimp only
    rcases hc : page.clipboard with e | c <;> dsimp only <;> split_ifs <;> try rfl
    all_goals split <;> rfl

lemma page_contains_content_error (page : PageOracle) (terms : StrOrList) (pr : Bool)
    (e : String) (hc : page.content = Except.error e) :
    page_contains (some page) terms pr
      = Except.ok (failureResult ("Failed to get page content: " ++ e)) := by
  unfold page_contains
  dsimp only
  rw [hc]

lemma sheet_contains_clipboard_error (page : PageOracle) (terms : StrOrList) (pr : Bool)
    (e : String) (hurl : pyContains page.url "docs.google.com/spreadsheets".data = true)
    (hterms : terms.toList.isEmpty = false) (hc : page.clipboard = Except.error e) :
    sheet_contains (some page) terms pr
      = Except.ok (failureResult ("Failed to evaluate: " ++ e)) := by
  unfold sheet_contains
  dsimp only
  simp [hurl, hterms, hc]

lemma sheets_cell_values_clipboard_error (page : PageOracle) (cv : CellValuesArg) (pr : Bool)
    (e : String) (hurl : pyContains page.url "docs.google.com/spreadsheets".data = true)
    (hvals : cv.normalize.isEmpty = false) (hc : page.clipboard = Except.error e) :
    sheets_cell_values (some page) cv pr
      = Except.ok (failureResult ("Failed to evaluate: " ++ e)) := by
  unfold sheets_cell_values
  dsimp only
  simp [hurl, hvals, hc]

/-- C3: evaluators never propagate exceptions — `url_match`, `page_contains`,
`sheet_contains` and `sheets_cell_values` return a result dictionary for
every input (every `.error` from a browser inspection oracle included), and
whenever a state inspection raises, the returned dictionary is exactly
`{reward: 0.0, success: false, error: <non-null message>}` (the history
evaluators are total functions of the wrapper state by construction and
perform no browser inspection). -/
theorem c3_evaluator_exception_safety :
    (∀ msg : String, (failureResult msg).reward = 0
        ∧ (failureResult msg).success = false ∧ (failureResult msg).error.isSome = true)
    ∧ (∀ (pt : Option PageOracle) (target : List Char),
        exceptIsOk (url_match pt target) = true)
    ∧ (∀ (pt : Option PageOracle) (terms : StrOrList) (pr : Bool),
        exceptIsOk (page_contains pt terms pr) = true)
    ∧ (∀ (pt : Option PageOracle) (terms : StrOrList) (pr : Bool),
        exceptIsOk (sheet_contains pt terms pr) = true)
    ∧ (∀ (pt : Option PageOracle) (cv : CellValuesArg) (pr : Bool),
        exceptIsOk (sheets_cell_values pt cv pr) = true)
    ∧ (∀ (page : PageOracle) (terms : StrOrList) (pr : Bool) (e : String),
        page.content = Except.error e →
        page_contains (some page) terms pr
          = Except.ok (failureResult ("Failed to get page content: " ++ e)))
    ∧ (∀ (page : PageOracle) (terms : StrOrList) (pr : Bool) (e : String),
        pyContains page.url "docs.google.com/spreadsheets".data = true →
        terms.toList.isEmpty = false → page.clipboard = Except.error e →
        sheet_contains (some page) terms pr
          = Except.ok (failureResult ("Failed to evaluate: " ++ e)))
    ∧ (∀ (page : PageOracle) (cv : CellValuesArg) (pr : Bool) (e : String),
        pyContains page.url "docs.google.com/spreadsheets".data = true →
        cv.normalize.isEmpty = false → page.clipboard = Except.error e →
        sheets_cell_values (some page) cv pr
          = Except.ok (failureResult ("Failed to evaluate: " ++ e))) := by
  refine ⟨fun msg => ⟨rfl, rfl, rfl⟩, url_match_ok, page_contains_ok, sheet_contains_ok,
    sheets_cell_values_ok, page_contains_content_error, ?_, ?_⟩
  · intro page terms pr e hurl hterms hc
    exact sheet_contains_clipboard_error page terms pr e hurl hterms hc
  · intro page cv pr e hurl hvals hc
    exact sheets_cell_values_clipboard_error page cv pr e hurl hvals hc

/-- Witness for C3: against a page whose `content()` and clipboard
extraction both raise, all three fallible evaluators return the failure
dictionary. -/
theorem c3_evaluator_exception_safety_witness :
    page_contains (some deadPage) (StrOrList.str "hello".data) true
      = Except.ok (failureResult ("Failed to get page content: " ++ "Connection closed"))
    ∧ sheet_contains (some deadPage) (StrOrList.str "hello".data) true
      = Except.ok (failureResult ("Failed to evaluate: " ++ "Connection closed"))
    ∧ sheets_cell_values (some deadPage) (CellValuesArg.dict [("A1".data, "1".data)]) true
      = Except.ok (failureResult ("Failed to evaluate: " ++ "Connection closed")) :=
  ⟨c3_evaluator_exception_safety.2.2.2.2.2.1 deadPage (StrOrList.str "hello".data) true
      "Connection closed" rfl,
   c3_evaluator_exception_safety.2.2.2.2.2.2.1 deadPage (StrOrList.str "hello".data) true
      "Connection closed" (by decide) rfl rfl,
   c3_evaluator_exception_safety.2.2.2.2.2.2.2 deadPage
      (CellValuesArg.dict [("A1".data, "1".data)]) true
      "Connection closed" (by decide) rfl rfl⟩

lemma exceptIsOk_exists {α : Type} {x : Except String α} (h : exceptIsOk x = true) :
    ∃ a, x = Except.ok a := by
  cases x with
  | ok a => exact ⟨a, rfl⟩
  | error e => exact absurd h (by simp [exceptIsOk])

lemma wikiReward_ok (tr : Bool) (js : Option Int) (mc : Int) (hmc : mc ≠ 0) :
    ∃ r, wikiReward tr js mc = Except.ok r := by
  unfold wikiReward
  dsimp only
  split_ifs <;> first
    | exact ⟨_, rfl⟩
    | (exfalso; omega)

lemma cellStep_ok (page : Option PageOracle)
    (cells : Option (List (List Char × List Char))) :
    ∃ r, sheetFromFileCellStep page cells = Except.ok r := by
  unfold sheetFromFileCellStep
  rcases cells with _ | cs
  · exact ⟨_, rfl⟩
  · dsimp only
    split_ifs
    · exact ⟨_, rfl⟩
    · obtain ⟨res, hres⟩ := exceptIsOk_exists
        (sheets_cell_values_ok page (CellValuesArg.dict cs) true)
      rw [hres]
      exact ⟨_, rfl⟩

lemma textStep_ok (page : Option PageOracle) (r1 : ℚ) (text : Option StrOrList) :
    ∃ r, sheetFromFileTextStep page r1 text = Except.ok r := by
  unfold sheetFromFileTextStep
  rcases text with _ | st
  · exact ⟨_, rfl⟩
  · dsimp only
    split_ifs
    · obtain ⟨res, hres⟩ := exceptIsOk_exists
        (sheet_contains_ok page (StrOrList.list st.toList) true)
      rw [hres]
      exact ⟨_, rfl⟩
    · exact ⟨_, rfl⟩

/-- Counterexample to C1: with no playwright tool available, the `answer`
scenario coroutine yields exactly one value — the zero reward — and no
prompt, so the short-circuit path emits a reward alone rather than a prompt
followed by a reward. -/
theorem c1_short_circuit_counterexample :
    (answer false "https://example.com".data "q".data none "exact".data none
        ⟨none, none, none⟩).1 = [Yield.reward 0]
    ∧ isPromptThenReward
        (answer false "https://example.com".data "q".data none "exact".data none
          ⟨none, none, none⟩).1 = false :=
  ⟨rfl, rfl⟩

/-- C1 (amended): on the setup-failure short-circuit paths (missing
playwright tool; for sheet-from-file also a missing file source or a failed
sheet creation) each scenario yields exactly one zero reward and no prompt;
for complete-sheet-task, when a page is present and the Google-Sheet
navigation helper's final attempt raises, the coroutine re-raises before
any yield (zero yields); on every other path each scenario yields exactly
one prompt followed by one reward and terminates normally (for
wiki-speedrun, provided `max_clicks ≠ 0`, since `max_clicks = 0` can reach
a division by zero). -/
theorem c1_scenario_yield_shapes :
    (∀ (url promptArg : List Char) (expected : Option (List Char)) (mode : List Char)
        (resp : Option (List Char)) (oracles : CompareOracles),
        answer false url promptArg expected mode resp oracles = ([Yield.reward 0], none)
        ∧ isPromptThenReward (answer true url promptArg expected mode resp oracles).1 = true
        ∧ (answer true url promptArg expected mode resp oracles).2 = none)
    ∧ (∀ (url promptArg : List Char) (fields verify : Option (List (List Char × List Char)))
        (selCheck : List Char → Option (List Char)),
        fill_record false url promptArg fields verify selCheck = ([Yield.reward 0], none)
        ∧ isPromptThenReward (fill_record true url promptArg fields verify selCheck).1 = true
        ∧ (fill_record true url promptArg fields verify selCheck).2 = none)
    ∧ (∀ (sp tp : List Char) (mc : Int) (po : Option (List Char)) (cu : List Char)
        (jh : Option Int),
        wiki_speedrun false sp tp mc po cu jh = ([Yield.reward 0], none)
        ∧ (mc ≠ 0 →
            isPromptThenReward (wiki_speedrun true sp tp mc po cu jh).1 = true
            ∧ (wiki_speedrun true sp tp mc po cu jh).2 = none))
    ∧ (∀ (promptArg : List Char) (cells : List (List Char × List Char)) (pr : Bool)
        (navAttempts : List AttemptOutcome),
        complete_sheet_task none promptArg cells pr navAttempts = ([Yield.reward 0], none)
        ∧ (∀ e, navigate_to_google_sheet navAttempts = Except.error e →
            ∀ page : PageOracle,
              complete_sheet_task (some (some page)) promptArg cells pr navAttempts
                = ([], some e))
        ∧ (∀ b, navigate_to_google_sheet navAttempts = Except.ok b →
            ∀ page : PageOracle,
              isPromptThenReward
                (complete_sheet_task (some (some page)) promptArg cells pr navAttempts).1 = true
              ∧ (complete_sheet_task (some (some page)) promptArg cells pr navAttempts).2
                  = none)
        ∧ (isPromptThenReward
              (complete_sheet_task (some none) promptArg cells pr navAttempts).1 = true
            ∧ (complete_sheet_task (some none) promptArg cells pr navAttempts).2 = none))
    ∧ (∀ (promptArg : List Char) (fu fb : Option (List Char)) (cr : OpResult)
        (cells : Option (List (List Char × List Char))) (text : Option StrOrList),
        sheet_from_file none promptArg fu fb cr cells text = ([Yield.reward 0], none)
        ∧ (∀ page : Option PageOracle, optTruthy fu = false → optTruthy fb = false →
            sheet_from_file (some page) promptArg fu fb cr cells text
              = ([Yield.reward 0], none))
        ∧ (∀ page : Option PageOracle, (optTruthy fu = true ∨ optTruthy fb = true) →
            cr.success = false →
            sheet_from_file (some page) promptArg fu fb cr cells text
              = ([Yield.reward 0], none))
        ∧ (∀ page : Option PageOracle, (optTruthy fu = true ∨ optTruthy fb = true) →
            cr.success = true →
            isPromptThenReward (sheet_from_file (some page) promptArg fu fb cr cells text).1
              = true
            ∧ (sheet_from_file (some page) promptArg fu fb cr cells text).2 = none)) := by
  refine ⟨?_, ?_, ?_, ?_, ?_⟩
  · intro url promptArg expected mode resp oracles
    exact ⟨rfl, rfl, rfl⟩
  · intro url promptArg fields verify selCheck
    refine ⟨rfl, ?_, ?_⟩
    · rcases verify with _ | v
      · rfl
      · cases hv : v.isEmpty <;> simp [fill_record, hv, isPromptThenReward]
    · rcases verify with _ | v
      · rfl
      · cases hv : v.isEmpty <;> simp [fill_record, hv]
  · intro sp tp mc po cu jh
    refine ⟨rfl, ?_⟩
    intro hmc
    obtain ⟨r, hr⟩ := wikiReward_ok
      (pyContains (pyLower cu) (pyLower ("/wiki/".data ++ tp))) jh mc hmc
    constructor
    · unfold wiki_speedrun
      dsimp only
      rw [hr]
      rfl
    · unfold wiki_speedrun
      dsimp only
      rw [hr]
      rfl
  · intro promptArg cells pr navAttempts
    refine ⟨rfl, ?_, ?_, ?_⟩
    · intro e he page
      unfold complete_sheet_task
      dsimp only
      rw [he]
    · intro b hb page
      obtain ⟨res, hres⟩ := exceptIsOk_exists
        (sheets_cell_values_ok (some page) (CellValuesArg.dict cells) pr)
      constructor
      · unfold complete_sheet_task
        dsimp only
        rw [hb]
        dsimp only
        rw [hres]
        rfl
      · unfold complete_sheet_task
        dsimp only
        rw [hb]
        dsimp only
        rw [hres]
    · obtain ⟨res, hres⟩ := exceptIsOk_exists
        (sheets_cell_values_ok none (CellValuesArg.dict cells) pr)
      constructor
      · unfold complete_sheet_task
        dsimp only
        rw [hres]
        rfl
      · unfold complete_sheet_task
        dsimp only
        rw [hres]
  · intro promptArg fu fb cr cells text
    refine ⟨rfl, ?_, ?_, ?_⟩
    · intro page h1 h2
      simp [sheet_from_file, h1, h2]
    · intro page hfile hcr
      rcases hfile with h | h <;> simp [sheet_from_file, h, hcr]
    · intro page hfile hcr
      obtain ⟨r1, h1⟩ := cellStep_ok page cells
      obtain ⟨rf, h2⟩ := textStep_ok page r1 text
      rcases hfile with h | h <;>
        constructor <;>
          simp [sheet_from_file, h, hcr, h1, h2, isPromptThenReward]

/-- Witness for C1: a concrete wiki-speedrun run with `max_clicks = 10` and
a concrete sheet-from-file run with a file URL and successful creation both
yield exactly one prompt then one reward. -/
theorem c1_scenario_yield_shapes_witness :
    ((10 : Int) ≠ 0
      ∧ isPromptThenReward
          (wiki_speedrun true "Cat".data "Dog".data 10 none "https://en.wikipedia.org/wiki/Dog".data
            (some 3)).1 = true)
    ∧ ((optTruthy (some "https://files.example/t.xlsx".data) = true
          ∨ optTruthy (none : Option (List Char)) = true)
      ∧ (OpResult.mk true).success = true
      ∧ isPromptThenReward
          (sheet_from_file (some none) "do the task".data
            (some "https://files.example/t.xlsx".data) none (OpResult.mk true)
            none none).1 = true) :=
  ⟨⟨by norm_num,
    ((c1_scenario_yield_shapes.2.2.1 "Cat".data "Dog".data 10 none
        "https://en.wikipedia.org/wiki/Dog".data (some 3)).2 (by norm_num)).1⟩,
   ⟨Or.inl rfl, rfl,
    ((c1_scenario_yield_shapes.2.2.2.2 "do the task".data
        (some "https://files.example/t.xlsx".data) none (OpResult.mk true) none none).2.2.2
      none (Or.inl rfl) rfl).1⟩⟩

/-- Witness for C7: at the requested `(1300, 700)`, the selected viewport is
at least as close (Manhattan distance) as the supported `(1920, 1080)`. -/
theorem c7_browserbase_viewport_reconciliation_witness :
    viewportDist 1300 700 (browserbase_viewport none none false 1300 700)
      ≤ viewportDist 1300 700 (1920, 1080) :=
  (c7_browserbase_viewport_reconciliation.1 1300 700).2 (1920, 1080) (by decide)
